import Mathlib

/-!
Verification of the `akismet` Python client library (async client face).

The definitions below are a shallow embedding of the code in
`src/akismet/_common.py`, `src/akismet/_exceptions.py` and
`src/akismet/_async_client.py`. The HTTP transport (the `httpx` client held by
an `AsyncClient`) is modelled as a function from the issued request to a
transport outcome; each client operation returns the value it produces (or the
exception it raises, via `Except`) together with the list of requests it
actually handed to the transport, so that payload contents and the absence of
network calls are provable facts. Exception message text and JSON parsing of
response bodies are elided: an exception is represented by its type plus the
data the code puts into it, and a parsed JSON body is represented by the raw
body text it was parsed from.
-/

namespace Akismet

/-- Constants from `_common.py`. -/
def _API_URL : String := "https://rest.akismet.com"

/-- API version `1.1` from `_common.py`. -/
def _API_V11 : String := "1.1"

/-- API version `1.2` from `_common.py`. -/
def _API_V12 : String := "1.2"

/-- Endpoint name from `_common.py`. -/
def _COMMENT_CHECK : String := "comment-check"

/-- Endpoint name from `_common.py`. -/
def _KEY_SITES : String := "key-sites"

/-- The fixed acknowledgement body for submissions, from `_common.py`. -/
def _SUBMISSION_RESPONSE : String := "Thanks for making the web a better place."

/-- Endpoint name from `_common.py`. -/
def _SUBMIT_HAM : String := "submit-ham"

/-- Endpoint name from `_common.py`. -/
def _SUBMIT_SPAM : String := "submit-spam"

/-- Endpoint name from `_common.py`. -/
def _USAGE_LIMIT : String := "usage-limit"

/-- Endpoint name from `_common.py`. -/
def _VERIFY_KEY : String := "verify-key"

/-- The recognized optional argument names, from `_common.py`. -/
def _OPTIONAL_KEYS : List String :=
  [ "blog_charset",
    "blog_lang",
    "comment_author",
    "comment_author_email",
    "comment_author_url",
    "comment_content",
    "comment_context",
    "comment_date_gmt",
    "comment_post_modified_gmt",
    "comment_type",
    "honeypot_field_name",
    "is_test",
    "permalink",
    "recheck_reason",
    "referrer",
    "user_agent",
    "user_role" ]

/-- `CheckResponse` from `_common.py`: the tri-state outcome of a content
check, an `IntEnum` with values HAM = 0, SPAM = 1, DISCARD = 2. -/
inductive CheckResponse where
  | HAM
  | SPAM
  | DISCARD
deriving Repr, DecidableEq

/-- The `IntEnum` ordinal of a `CheckResponse` value. -/
def CheckResponse.toNat : CheckResponse → Nat
  | .HAM => 0
  | .SPAM => 1
  | .DISCARD => 2

/-- `Config` from `_common.py`: a named tuple of an API key and a site URL. -/
structure Config where
  key : String
  url : String
deriving Repr, DecidableEq

/-- Why a `RequestError` was raised: a non-success HTTP status (carrying the
status code), a timeout, an `httpx.RequestError`, or any other exception
during the request. These are the four `except` clauses of
`AsyncClient._request`. -/
inductive RequestCause where
  | status (code : Nat)
  | timeout
  | transportFault
  | otherFault
deriving Repr, DecidableEq

/-- The exception taxonomy from `_exceptions.py`. Human-readable message text
is elided; each constructor carries the data the code interpolates into the
message where that data is semantically relevant (the unknown argument names,
the failing status, and the operation, body and debug header of a
`ProtocolError`). -/
inductive AkismetException where
  | akismetError
  | unknownArgumentError (unknownArgs : List String)
  | requestError (cause : RequestCause)
  | protocolError (operation : String) (body : String) (debugHeader : Option String)
  | configurationError
  | apiKeyError
deriving Repr, DecidableEq

/-- An HTTP response as the client consumes it: status code, body text and
response headers. Header lookup is by exact name (httpx normalizes header
case; that normalization is abstracted away). -/
structure HttpResponse where
  statusCode : Nat
  text : String
  headers : List (String × String)
deriving Repr, DecidableEq

/-- A request handed to the HTTP transport: method, URL and the payload
(form-encoded body for POST, query parameters for GET; integer parameter
values are rendered as strings, as httpx does on the wire). -/
structure Request where
  method : String
  url : String
  data : List (String × String)
deriving Repr, DecidableEq

/-- What a single transport invocation can do, from the point of view of the
`try` block in `AsyncClient._request`: produce a response, or raise a
timeout, an `httpx.RequestError`, or some other exception. -/
inductive TransportOutcome where
  | response (r : HttpResponse)
  | timeoutException
  | httpxRequestError
  | otherException

/-- `dict.get(name, dflt)` on a response header list. -/
def headersGet (hs : List (String × String)) (name dflt : String) : String :=
  match hs.lookup name with
  | some v => v
  | none => dflt

/-- `dict.get(name, None)` on a response header list. -/
def headersGetOpt (hs : List (String × String)) (name : String) : Option String :=
  hs.lookup name

/-- Python `str.upper()` restricted to ASCII, which is all the code applies it
to (HTTP method names). -/
def asciiUpper (s : String) : String :=
  String.mk (s.data.map (fun c => if 97 ≤ c.toNat ∧ c.toNat ≤ 122 then Char.ofNat (c.toNat - 32) else c))

/-- `httpx.Response.is_success`: the statuses for which `raise_for_status`
does not raise. -/
def isSuccess (code : Nat) : Bool :=
  decide (200 ≤ code ∧ code ≤ 299)

/-- The `ProtocolError` raised by `_common._protocol_error`: carries the
operation name, the raw response body, and the `X-akismet-debug-help`
response header when present. -/
def protocolErrorFor (operation : String) (response : HttpResponse) : AkismetException :=
  .protocolError operation response.text (headersGetOpt response.headers "X-akismet-debug-help")

/-- An Akismet API client: a held `Config` and a held HTTP transport, both
set at construction and never mutated (`AsyncClient.__init__`). -/
structure AsyncClient where
  _config : Config
  _http_client : Request → TransportOutcome

/-- `AsyncClient._request`: uppercase and check the method, issue the HTTP
call, normalize transport failures into `RequestError`, and raise
`APIKeyError` when a non-verify-key endpoint answers with the literal body
`"invalid"`. The second component of the result is the list of requests that
reached the transport. -/
def AsyncClient._request (client : AsyncClient) (method version endpoint : String)
    (data : List (String × String)) :
    Except AkismetException HttpResponse × List Request :=
  let m := asciiUpper method
  if ¬ (m = "GET" ∨ m = "POST") then
    (.error .akismetError, [])
  else
    let req : Request := ⟨m, _API_URL ++ "/" ++ version ++ "/" ++ endpoint, data⟩
    match client._http_client req with
    | .timeoutException => (.error (.requestError .timeout), [req])
    | .httpxRequestError => (.error (.requestError .transportFault), [req])
    | .otherException => (.error (.requestError .otherFault), [req])
    | .response r =>
      if ¬ isSuccess r.statusCode then
        (.error (.requestError (.status r.statusCode)), [req])
      else if endpoint ≠ _VERIFY_KEY ∧ r.text = "invalid" then
        (.error .apiKeyError, [req])
      else
        (.ok r, [req])

/-- `AsyncClient._get_request`. -/
def AsyncClient._get_request (client : AsyncClient) (version endpoint : String)
    (params : List (String × String)) :
    Except AkismetException HttpResponse × List Request :=
  client._request "GET" version endpoint params

/-- `AsyncClient._post_request`: reject unknown optional argument names before
any network call, then POST the config key and URL, the user IP and the
optional arguments as form data. The unknown-argument guard guarantees the
keyword arguments are disjoint from the three fixed keys, so the Python dict
merge is modelled exactly by list append. -/
def AsyncClient._post_request (client : AsyncClient) (version endpoint user_ip : String)
    (kwargs : List (String × String)) :
    Except AkismetException HttpResponse × List Request :=
  let unknown_args := (kwargs.filter (fun kv => ¬ _OPTIONAL_KEYS.contains kv.1)).map Prod.fst
  if unknown_args ≠ [] then
    (.error (.unknownArgumentError unknown_args), [])
  else
    let data :=
      [("api_key", client._config.key), ("blog", client._config.url), ("user_ip", user_ip)]
        ++ kwargs
    client._request "POST" version endpoint data

/-- `AsyncClient._submit`: shared body of `submit_ham` and `submit_spam`. -/
def AsyncClient._submit (client : AsyncClient) (endpoint user_ip : String)
    (kwargs : List (String × String)) :
    Except AkismetException Bool × List Request :=
  match client._post_request _API_V11 endpoint user_ip kwargs with
  | (.error e, tr) => (.error e, tr)
  | (.ok response, tr) =>
    if response.text = _SUBMISSION_RESPONSE then
      (.ok true, tr)
    else
      (.error (protocolErrorFor endpoint response), tr)

/-- `AsyncClient.comment_check`: classify a piece of content. Body `"true"`
is spam, upgraded to DISCARD when the `X-akismet-pro-tip` header equals
`"discard"`; body `"false"` is ham; anything else is a protocol error. -/
def AsyncClient.comment_check (client : AsyncClient) (user_ip : String)
    (kwargs : List (String × String)) :
    Except AkismetException CheckResponse × List Request :=
  match client._post_request _API_V11 _COMMENT_CHECK user_ip kwargs with
  | (.error e, tr) => (.error e, tr)
  | (.ok response, tr) =>
    if response.text = "true" then
      if headersGet response.headers "X-akismet-pro-tip" "" = "discard" then
        (.ok .DISCARD, tr)
      else
        (.ok .SPAM, tr)
    else if response.text = "false" then
      (.ok .HAM, tr)
    else
      (.error (protocolErrorFor _COMMENT_CHECK response), tr)

/-- `AsyncClient.submit_ham`. -/
def AsyncClient.submit_ham (client : AsyncClient) (user_ip : String)
    (kwargs : List (String × String)) :
    Except AkismetException Bool × List Request :=
  client._submit _SUBMIT_HAM user_ip kwargs

/-- `AsyncClient.submit_spam`. -/
def AsyncClient.submit_spam (client : AsyncClient) (user_ip : String)
    (kwargs : List (String × String)) :
    Except AkismetException Bool × List Request :=
  client._submit _SUBMIT_SPAM user_ip kwargs

/-- The result of `key_sites`: either `response.json()` (represented by the
raw body the JSON parser was applied to) or the raw `response.text` for CSV
format. -/
inductive KeySitesResult where
  | jsonOf (rawBody : String)
  | textOf (rawBody : String)
deriving Repr, DecidableEq

/-- The query parameter dict built by the loop in `AsyncClient.key_sites`:
each of the six optional arguments is included exactly when it was supplied,
in the order of the loop tuple. -/
def keySitesParams (month url_filter result_format order : Option String)
    (limit offset : Option Int) : List (String × String) :=
  ([ ("month", month),
     ("filter", url_filter),
     ("format", result_format),
     ("order", order),
     ("limit", limit.map toString),
     ("offset", offset.map toString) ]).filterMap
    (fun p => p.2.map (fun v => (p.1, v)))

/-- `AsyncClient.key_sites`: GET usage statistics keyed by site, passing only
the explicitly supplied optional arguments as query parameters, and returning
raw text for CSV format and parsed JSON otherwise. -/
def AsyncClient.key_sites (client : AsyncClient)
    (month url_filter result_format order : Option String)
    (limit offset : Option Int) :
    Except AkismetException KeySitesResult × List Request :=
  match client._get_request _API_V12 _KEY_SITES
      (keySitesParams month url_filter result_format order limit offset) with
  | (.error e, tr) => (.error e, tr)
  | (.ok response, tr) =>
    if result_format = some "csv" then
      (.ok (.textOf response.text), tr)
    else
      (.ok (.jsonOf response.text), tr)

/-- `AsyncClient.usage_limit`: GET the usage statistics for the current
month, passing the API key as the only query parameter; the JSON result is
represented by the raw body it was parsed from. -/
def AsyncClient.usage_limit (client : AsyncClient) :
    Except AkismetException String × List Request :=
  match client._get_request _API_V12 _USAGE_LIMIT [("api_key", client._config.key)] with
  | (.error e, tr) => (.error e, tr)
  | (.ok response, tr) => (.ok response.text, tr)

/-- `AsyncClient.verify_key`: POST the explicit key and URL to `verify-key`;
body `"valid"` means true, `"invalid"` means false, anything else is a
protocol error. -/
def AsyncClient.verify_key (client : AsyncClient) (key url : String) :
    Except AkismetException Bool × List Request :=
  match client._request "POST" _API_V11 _VERIFY_KEY [("key", key), ("blog", url)] with
  | (.error e, tr) => (.error e, tr)
  | (.ok response, tr) =>
    if response.text = "valid" then
      (.ok true, tr)
    else if response.text = "invalid" then
      (.ok false, tr)
    else
      (.error (protocolErrorFor _VERIFY_KEY response), tr)

/-- Python `str.startswith` for a single literal argument, via the character
list underlying the string. -/
def pyStartsWith (s pre : String) : Bool :=
  pre.data.isPrefixOf s.data

/-- `_common._try_discover_config`: read the API key and site URL (here,
passed as the observed environment values, `none` meaning the variable is
unset), fail when either is missing or empty, fail when the URL does not
start with `http://` or `https://`, and otherwise produce the `Config`. -/
def _try_discover_config (envKey envUrl : Option String) :
    Except AkismetException Config :=
  match envKey, envUrl with
  | some key, some url =>
    if key = "" ∨ url = "" then
      .error .configurationError
    else if ¬ (pyStartsWith url "http://" ∨ pyStartsWith url "https://") then
      .error .configurationError
    else
      .ok ⟨key, url⟩
  | _, _ => .error .configurationError

/-- `AsyncClient.validated_client`: discover the configuration, construct the
instance, call `verify_key` on the discovered key and URL, raise
`APIKeyError` when it returns false, and otherwise return the instance. -/
def AsyncClient.validated_client (envKey envUrl : Option String)
    (http_client : Request → TransportOutcome) :
    Except AkismetException AsyncClient × List Request :=
  match _try_discover_config envKey envUrl with
  | .error e => (.error e, [])
  | .ok config =>
    let inst : AsyncClient := ⟨config, http_client⟩
    match inst.verify_key config.key config.url with
    | (.error e, tr) => (.error e, tr)
    | (.ok b, tr) =>
      if b then (.ok inst, tr) else (.error .apiKeyError, tr)

/-- Whether a call result is a raised `UnknownArgumentError`. -/
def isUnknownArgumentError {α : Type} : Except AkismetException α → Bool
  | .error (.unknownArgumentError _) => true
  | _ => false

/-- Whether a call result is a raised `ProtocolError`. -/
def isProtocolError {α : Type} : Except AkismetException α → Bool
  | .error (.protocolError _ _ _) => true
  | _ => false

/-- A transport that always produces the same response, regardless of the
request: the model of a mocked HTTP client returning a fixed response. -/
def constTransport (r : HttpResponse) : Request → TransportOutcome :=
  fun _ => .response r

/-- The fixed test configuration used by the repository test suite. -/
def testConfig : Config := ⟨"fake-test-key", "http://example.com"⟩

/-- The POST request `_post_request` builds for an endpoint once the
unknown-argument guard has passed. -/
def postRequestFor (cfg : Config) (endpoint user_ip : String)
    (kwargs : List (String × String)) : Request :=
  ⟨"POST", _API_URL ++ "/" ++ _API_V11 ++ "/" ++ endpoint,
    [("api_key", cfg.key), ("blog", cfg.url), ("user_ip", user_ip)] ++ kwargs⟩

/-- The POST request `verify_key` builds. -/
def verifyKeyRequest (key url : String) : Request :=
  ⟨"POST", _API_URL ++ "/" ++ _API_V11 ++ "/" ++ _VERIFY_KEY, [("key", key), ("blog", url)]⟩

end Akismet

namespace Akismet

/-- The trace of `_request` with method "POST" is always exactly the one
built request, whatever the transport does. -/
theorem _request_trace_POST (client : AsyncClient) (version endpoint : String)
    (data : List (String × String)) :
    (client._request "POST" version endpoint data).2 =
      [⟨"POST", _API_URL ++ "/" ++ version ++ "/" ++ endpoint, data⟩] := by
  unfold AsyncClient._request
  rw [show asciiUpper "POST" = "POST" from rfl]
  rcases h : client._http_client ⟨"POST", _API_URL ++ "/" ++ version ++ "/" ++ endpoint, data⟩ with r | _ | _ | _
  · by_cases h1 : isSuccess r.statusCode = true
    · by_cases h2 : endpoint ≠ _VERIFY_KEY ∧ r.text = "invalid" <;> simp [h, h1, h2]
    · simp [h, h1]
  · simp [h]
  · simp [h]
  · simp [h]

/-- The trace of `_request` with method "GET" is always exactly the one
built request, whatever the transport does. -/
theorem _request_trace_GET (client : AsyncClient) (version endpoint : String)
    (data : List (String × String)) :
    (client._request "GET" version endpoint data).2 =
      [⟨"GET", _API_URL ++ "/" ++ version ++ "/" ++ endpoint, data⟩] := by
  unfold AsyncClient._request
  rw [show asciiUpper "GET" = "GET" from rfl]
  rcases h : client._http_client ⟨"GET", _API_URL ++ "/" ++ version ++ "/" ++ endpoint, data⟩ with r | _ | _ | _
  · by_cases h1 : isSuccess r.statusCode = true
    · by_cases h2 : endpoint ≠ _VERIFY_KEY ∧ r.text = "invalid" <;> simp [h, h1, h2]
    · simp [h, h1]
  · simp [h]
  · simp [h]
  · simp [h]

/-- Behavior of a POST `_request` against a transport producing a fixed
success-status response: raise `APIKeyError` when a non-verify endpoint
answers `"invalid"`, otherwise hand the response back. -/
theorem _request_POST_response (cfg : Config) (r : HttpResponse)
    (version endpoint : String) (data : List (String × String))
    (hs : isSuccess r.statusCode = true) :
    (AsyncClient.mk cfg (constTransport r))._request "POST" version endpoint data =
      ((if endpoint ≠ _VERIFY_KEY ∧ r.text = "invalid" then .error .apiKeyError else .ok r),
        [⟨"POST", _API_URL ++ "/" ++ version ++ "/" ++ endpoint, data⟩]) := by
  unfold AsyncClient._request constTransport
  rw [show asciiUpper "POST" = "POST" from rfl]
  simp [hs]
  split <;> rfl

/-- Behavior of a GET `_request` against a transport producing a fixed
success-status response. -/
theorem _request_GET_response (cfg : Config) (r : HttpResponse)
    (version endpoint : String) (data : List (String × String))
    (hs : isSuccess r.statusCode = true) :
    (AsyncClient.mk cfg (constTransport r))._request "GET" version endpoint data =
      ((if endpoint ≠ _VERIFY_KEY ∧ r.text = "invalid" then .error .apiKeyError else .ok r),
        [⟨"GET", _API_URL ++ "/" ++ version ++ "/" ++ endpoint, data⟩]) := by
  unfold AsyncClient._request constTransport
  rw [show asciiUpper "GET" = "GET" from rfl]
  simp [hs]
  split <;> rfl

/-- When every optional argument name is recognized, `_post_request` passes
the unknown-argument guard and issues the POST with the merged form data. -/
theorem _post_request_known (client : AsyncClient) (version endpoint u : String)
    (k : List (String × String)) (hkw : ∀ kv ∈ k, kv.1 ∈ _OPTIONAL_KEYS) :
    client._post_request version endpoint u k =
      client._request "POST" version endpoint
        ([("api_key", client._config.key), ("blog", client._config.url), ("user_ip", u)] ++ k) := by
  unfold AsyncClient._post_request
  have hfilter : k.filter (fun kv => ¬ _OPTIONAL_KEYS.contains kv.1) = [] := by
    rw [List.filter_eq_nil_iff]
    intro kv hkv
    simp [hkw kv hkv]
  rw [hfilter]
  simp

/-- When some optional argument name is not recognized, `_post_request`
raises `UnknownArgumentError` and performs no transport invocation. -/
theorem _post_request_unknown (client : AsyncClient) (version endpoint u : String)
    (k : List (String × String)) (h : ∃ kv ∈ k, kv.1 ∉ _OPTIONAL_KEYS) :
    client._post_request version endpoint u k =
      (.error (.unknownArgumentError
        ((k.filter (fun kv => ¬ _OPTIONAL_KEYS.contains kv.1)).map Prod.fst)), []) := by
  unfold AsyncClient._post_request
  obtain ⟨kv, hmem, hko⟩ := h
  have hmemf : kv ∈ k.filter (fun kv => ¬ _OPTIONAL_KEYS.contains kv.1) := by
    rw [List.mem_filter]
    exact ⟨hmem, by simp [hko]⟩
  have hne : (k.filter (fun kv => ¬ _OPTIONAL_KEYS.contains kv.1)).map Prod.fst ≠ [] := by
    intro hcon
    rw [List.map_eq_nil_iff] at hcon
    rw [hcon] at hmemf
    exact absurd hmemf (List.not_mem_nil kv)
  simp [hne]
  intro hall
  exact absurd (hall kv.1 kv.2 (by simpa using hmem)) hko

end Akismet

namespace Akismet

theorem comment_check_classify (cfg : Config) (r : HttpResponse) (u : String)
    (k : List (String × String)) (hkw : ∀ kv ∈ k, kv.1 ∈ _OPTIONAL_KEYS)
    (hs : isSuccess r.statusCode = true) :
    (AsyncClient.mk cfg (constTransport r)).comment_check u k =
      ((if r.text = "invalid" then .error .apiKeyError
        else if r.text = "true" then
          (if headersGet r.headers "X-akismet-pro-tip" "" = "discard" then .ok .DISCARD else .ok .SPAM)
        else if r.text = "false" then .ok .HAM
        else .error (protocolErrorFor _COMMENT_CHECK r)),
       [postRequestFor cfg _COMMENT_CHECK u k]) := by
  unfold AsyncClient.comment_check
  rw [_post_request_known _ _ _ _ _ hkw, _request_POST_response cfg r _ _ _ hs]
  by_cases hinv : r.text = "invalid"
  · simp [hinv, _COMMENT_CHECK, _VERIFY_KEY, postRequestFor, _API_URL, _API_V11]
  · simp [hinv, postRequestFor, _COMMENT_CHECK, _VERIFY_KEY, _API_URL, _API_V11]
    split <;> first | rfl | (split <;> rfl)

theorem _submit_classify (cfg : Config) (r : HttpResponse) (endpoint u : String)
    (k : List (String × String)) (hend : endpoint ≠ _VERIFY_KEY)
    (hkw : ∀ kv ∈ k, kv.1 ∈ _OPTIONAL_KEYS) (hs : isSuccess r.statusCode = true) :
    (AsyncClient.mk cfg (constTransport r))._submit endpoint u k =
      ((if r.text = "invalid" then .error .apiKeyError
        else if r.text = _SUBMISSION_RESPONSE then .ok true
        else .error (protocolErrorFor endpoint r)),
       [postRequestFor cfg endpoint u k]) := by
  unfold AsyncClient._submit
  rw [_post_request_known _ _ _ _ _ hkw, _request_POST_response cfg r _ _ _ hs]
  by_cases hinv : r.text = "invalid"
  · simp [hinv, hend, postRequestFor]
  · simp [hinv, postRequestFor]
    split <;> rfl

theorem verify_key_classify (cfg : Config) (r : HttpResponse) (key url : String)
    (hs : isSuccess r.statusCode = true) :
    (AsyncClient.mk cfg (constTransport r)).verify_key key url =
      ((if r.text = "valid" then .ok true
        else if r.text = "invalid" then .ok false
        else .error (protocolErrorFor _VERIFY_KEY r)),
       [verifyKeyRequest key url]) := by
  unfold AsyncClient.verify_key
  rw [_request_POST_response cfg r _ _ _ hs]
  simp [verifyKeyRequest]
  split <;> first | rfl | (split <;> rfl)

theorem key_sites_classify (cfg : Config) (r : HttpResponse)
    (month url_filter result_format order : Option String) (limit offset : Option Int)
    (hs : isSuccess r.statusCode = true) :
    (AsyncClient.mk cfg (constTransport r)).key_sites month url_filter result_format order limit offset =
      ((if r.text = "invalid" then .error .apiKeyError
        else if result_format = some "csv" then .ok (.textOf r.text) else .ok (.jsonOf r.text)),
       [⟨"GET", _API_URL ++ "/" ++ _API_V12 ++ "/" ++ _KEY_SITES,
         keySitesParams month url_filter result_format order limit offset⟩]) := by
  unfold AsyncClient.key_sites AsyncClient._get_request
  rw [_request_GET_response cfg r _ _ _ hs]
  by_cases hinv : r.text = "invalid"
  · simp [hinv, _KEY_SITES, _VERIFY_KEY]
  · simp [hinv]
    split <;> rfl

theorem usage_limit_classify (cfg : Config) (r : HttpResponse)
    (hs : isSuccess r.statusCode = true) :
    (AsyncClient.mk cfg (constTransport r)).usage_limit =
      ((if r.text = "invalid" then .error .apiKeyError else .ok r.text),
       [⟨"GET", _API_URL ++ "/" ++ _API_V12 ++ "/" ++ _USAGE_LIMIT, [("api_key", cfg.key)]⟩]) := by
  unfold AsyncClient.usage_limit AsyncClient._get_request
  rw [_request_GET_response cfg r _ _ _ hs]
  by_cases hinv : r.text = "invalid" <;> simp [hinv, _USAGE_LIMIT, _VERIFY_KEY]

end Akismet

namespace Akismet

theorem verify_key_trace (client : AsyncClient) (key url : String) :
    (client.verify_key key url).2 = [verifyKeyRequest key url] := by
  have htr := _request_trace_POST client _API_V11 _VERIFY_KEY [("key", key), ("blog", url)]
  unfold AsyncClient.verify_key
  rcases hreq : client._request "POST" _API_V11 _VERIFY_KEY [("key", key), ("blog", url)] with ⟨res, tr⟩
  rw [hreq] at htr
  rcases res with e | resp
  · simpa [verifyKeyRequest] using htr
  · by_cases h1 : resp.text = "valid"
    · simpa [h1, verifyKeyRequest] using htr
    · by_cases h2 : resp.text = "invalid" <;> simpa [h1, h2, verifyKeyRequest] using htr

theorem comment_check_trace (client : AsyncClient) (u : String) (k : List (String × String))
    (hkw : ∀ kv ∈ k, kv.1 ∈ _OPTIONAL_KEYS) :
    (client.comment_check u k).2 = [postRequestFor client._config _COMMENT_CHECK u k] := by
  have htr := _request_trace_POST client _API_V11 _COMMENT_CHECK
    ([("api_key", client._config.key), ("blog", client._config.url), ("user_ip", u)] ++ k)
  unfold AsyncClient.comment_check
  rw [_post_request_known _ _ _ _ _ hkw]
  rcases hreq : client._request "POST" _API_V11 _COMMENT_CHECK
      ([("api_key", client._config.key), ("blog", client._config.url), ("user_ip", u)] ++ k) with ⟨res, tr⟩
  rw [hreq] at htr
  rcases res with e | resp
  · simpa [postRequestFor] using htr
  · by_cases h1 : resp.text = "true"
    · by_cases h2 : headersGet resp.headers "X-akismet-pro-tip" "" = "discard" <;>
        simpa [h1, h2, postRequestFor] using htr
    · by_cases h3 : resp.text = "false" <;> simpa [h1, h3, postRequestFor] using htr

theorem _submit_trace (client : AsyncClient) (endpoint u : String) (k : List (String × String))
    (hkw : ∀ kv ∈ k, kv.1 ∈ _OPTIONAL_KEYS) :
    (client._submit endpoint u k).2 = [postRequestFor client._config endpoint u k] := by
  have htr := _request_trace_POST client _API_V11 endpoint
    ([("api_key", client._config.key), ("blog", client._config.url), ("user_ip", u)] ++ k)
  unfold AsyncClient._submit
  rw [_post_request_known _ _ _ _ _ hkw]
  rcases hreq : client._request "POST" _API_V11 endpoint
      ([("api_key", client._config.key), ("blog", client._config.url), ("user_ip", u)] ++ k) with ⟨res, tr⟩
  rw [hreq] at htr
  rcases res with e | resp
  · simpa [postRequestFor] using htr
  · by_cases h1 : resp.text = _SUBMISSION_RESPONSE <;> simpa [h1, postRequestFor] using htr

theorem key_sites_trace (client : AsyncClient)
    (month url_filter result_format order : Option String) (limit offset : Option Int) :
    (client.key_sites month url_filter result_format order limit offset).2 =
      [⟨"GET", _API_URL ++ "/" ++ _API_V12 ++ "/" ++ _KEY_SITES,
        keySitesParams month url_filter result_format order limit offset⟩] := by
  have htr := _request_trace_GET client _API_V12 _KEY_SITES
    (keySitesParams month url_filter result_format order limit offset)
  unfold AsyncClient.key_sites AsyncClient._get_request
  rcases hreq : client._request "GET" _API_V12 _KEY_SITES
      (keySitesParams month url_filter result_format order limit offset) with ⟨res, tr⟩
  rw [hreq] at htr
  rcases res with e | resp
  · simpa using htr
  · by_cases h1 : result_format = some "csv" <;> simpa [h1] using htr

end Akismet

namespace Akismet

/-- C1 counterexample: at a success-status response whose body is the literal
`"invalid"` (which is neither `"true"` nor `"false"`), `comment_check` raises
`APIKeyError`, not the `ProtocolError` the claim predicts for any other
literal body. -/
theorem C1_invalid_body_not_ProtocolError :
    (("invalid" : String) ≠ "true" ∧ ("invalid" : String) ≠ "false") ∧
    ((AsyncClient.mk testConfig (constTransport ⟨200, "invalid", []⟩)).comment_check
        "127.0.0.1" []).1 = .error .apiKeyError ∧
    isProtocolError ((AsyncClient.mk testConfig (constTransport ⟨200, "invalid", []⟩)).comment_check
        "127.0.0.1" []).1 = false :=
  ⟨by decide, rfl, rfl⟩

/-- C1 (amended): for a comment_check call with recognized optional arguments
whose transport response has a success status: body true without the discard
header value gives SPAM, body true with it gives DISCARD, body false gives
HAM, body invalid raises APIKeyError, and any other body raises
ProtocolError. -/
theorem C1_comment_check_classification (cfg : Config) (r : HttpResponse) (u : String)
    (k : List (String × String)) (hkw : ∀ kv ∈ k, kv.1 ∈ _OPTIONAL_KEYS)
    (hs : isSuccess r.statusCode = true) :
    (r.text = "true" → headersGet r.headers "X-akismet-pro-tip" "" ≠ "discard" →
      ((AsyncClient.mk cfg (constTransport r)).comment_check u k).1 = .ok .SPAM) ∧
    (r.text = "true" → headersGet r.headers "X-akismet-pro-tip" "" = "discard" →
      ((AsyncClient.mk cfg (constTransport r)).comment_check u k).1 = .ok .DISCARD) ∧
    (r.text = "false" →
      ((AsyncClient.mk cfg (constTransport r)).comment_check u k).1 = .ok .HAM) ∧
    (r.text = "invalid" →
      ((AsyncClient.mk cfg (constTransport r)).comment_check u k).1 = .error .apiKeyError) ∧
    (r.text ≠ "true" → r.text ≠ "false" → r.text ≠ "invalid" →
      ((AsyncClient.mk cfg (constTransport r)).comment_check u k).1 =
        .error (protocolErrorFor _COMMENT_CHECK r)) := by
  rw [comment_check_classify cfg r u k hkw hs]
  refine ⟨fun h1 h2 => by simp [h1, h2], fun h1 h2 => by simp [h1, h2],
    fun h1 => by simp [h1], fun h1 => by simp [h1],
    fun h1 h2 h3 => by simp [h1, h2, h3]⟩

/-- Witness for C1: a concrete SPAM classification. -/
theorem C1_comment_check_classification_witness :
    ((AsyncClient.mk testConfig (constTransport ⟨200, "true", []⟩)).comment_check "127.0.0.1"
      [("comment_content", "test")]).1 = .ok .SPAM :=
  (C1_comment_check_classification testConfig ⟨200, "true", []⟩ "127.0.0.1"
      [("comment_content", "test")] (by decide) (by decide)).1 rfl (by decide)

/-- C2: on a success-status response whose body is the literal string
`"invalid"`, every operation other than verify_key raises `APIKeyError`,
whatever the operation and its arguments. -/
theorem C2_invalid_body_raises_APIKeyError (cfg : Config) (r : HttpResponse) (u : String)
    (k : List (String × String)) (month url_filter result_format order : Option String)
    (limit offset : Option Int) (hkw : ∀ kv ∈ k, kv.1 ∈ _OPTIONAL_KEYS)
    (hs : isSuccess r.statusCode = true) (hinv : r.text = "invalid") :
    ((AsyncClient.mk cfg (constTransport r)).comment_check u k).1 = .error .apiKeyError ∧
    ((AsyncClient.mk cfg (constTransport r)).submit_spam u k).1 = .error .apiKeyError ∧
    ((AsyncClient.mk cfg (constTransport r)).submit_ham u k).1 = .error .apiKeyError ∧
    ((AsyncClient.mk cfg (constTransport r)).key_sites month url_filter result_format order
        limit offset).1 = .error .apiKeyError ∧
    ((AsyncClient.mk cfg (constTransport r)).usage_limit).1 = .error .apiKeyError := by
  unfold AsyncClient.submit_spam AsyncClient.submit_ham
  rw [comment_check_classify cfg r u k hkw hs,
      _submit_classify cfg r _SUBMIT_SPAM u k (by decide) hkw hs,
      _submit_classify cfg r _SUBMIT_HAM u k (by decide) hkw hs,
      key_sites_classify cfg r month url_filter result_format order limit offset hs,
      usage_limit_classify cfg r hs]
  simp [hinv]

/-- Witness for C2: a concrete run of all five operations against the body
`"invalid"`. -/
theorem C2_invalid_body_raises_APIKeyError_witness :
    ((AsyncClient.mk testConfig (constTransport ⟨200, "invalid", []⟩)).comment_check
        "127.0.0.1" []).1 = .error .apiKeyError ∧
    ((AsyncClient.mk testConfig (constTransport ⟨200, "invalid", []⟩)).submit_spam
        "127.0.0.1" []).1 = .error .apiKeyError ∧
    ((AsyncClient.mk testConfig (constTransport ⟨200, "invalid", []⟩)).submit_ham
        "127.0.0.1" []).1 = .error .apiKeyError ∧
    ((AsyncClient.mk testConfig (constTransport ⟨200, "invalid", []⟩)).key_sites
        none none none none none none).1 = .error .apiKeyError ∧
    ((AsyncClient.mk testConfig (constTransport ⟨200, "invalid", []⟩)).usage_limit).1 =
      .error .apiKeyError :=
  C2_invalid_body_raises_APIKeyError testConfig ⟨200, "invalid", []⟩ "127.0.0.1" []
    none none none none none none (by decide) (by decide) rfl

/-- C3: for a verify_key call whose transport response has a success status,
body valid gives true, body invalid gives false, and any other body raises
ProtocolError. -/
theorem C3_verify_key_classification (cfg : Config) (r : HttpResponse) (key url : String)
    (hs : isSuccess r.statusCode = true) :
    (r.text = "valid" →
      ((AsyncClient.mk cfg (constTransport r)).verify_key key url).1 = .ok true) ∧
    (r.text = "invalid" →
      ((AsyncClient.mk cfg (constTransport r)).verify_key key url).1 = .ok false) ∧
    (r.text ≠ "valid" → r.text ≠ "invalid" →
      ((AsyncClient.mk cfg (constTransport r)).verify_key key url).1 =
        .error (protocolErrorFor _VERIFY_KEY r)) := by
  rw [verify_key_classify cfg r key url hs]
  exact ⟨fun h1 => by simp [h1], fun h1 => by simp [h1], fun h1 h2 => by simp [h1, h2]⟩

/-- Witness for C3: concrete valid and invalid bodies. -/
theorem C3_verify_key_classification_witness :
    ((AsyncClient.mk testConfig (constTransport ⟨200, "valid", []⟩)).verify_key
        "fake-test-key" "http://example.com").1 = .ok true :=
  (C3_verify_key_classification testConfig ⟨200, "valid", []⟩ "fake-test-key"
      "http://example.com" (by decide)).1 rfl

/-- C4 counterexample: at a success-status response whose body is the literal
`"invalid"` (which differs from the fixed acknowledgement string),
submit_spam raises `APIKeyError`, not the `ProtocolError` the claim predicts
for every non-acknowledgement body. -/
theorem C4_invalid_body_not_ProtocolError :
    ("invalid" : String) ≠ _SUBMISSION_RESPONSE ∧
    ((AsyncClient.mk testConfig (constTransport ⟨200, "invalid", []⟩)).submit_spam
        "127.0.0.1" []).1 = .error .apiKeyError ∧
    isProtocolError ((AsyncClient.mk testConfig (constTransport ⟨200, "invalid", []⟩)).submit_spam
        "127.0.0.1" []).1 = false :=
  ⟨by decide, rfl, rfl⟩

/-- C4 (amended): for submit_spam and submit_ham calls with recognized
optional arguments whose transport response has a success status: the call
returns true exactly when the body equals the fixed acknowledgement string;
otherwise body invalid raises APIKeyError and any other body raises
ProtocolError. -/
theorem C4_submission_classification (cfg : Config) (r : HttpResponse) (u : String)
    (k : List (String × String)) (hkw : ∀ kv ∈ k, kv.1 ∈ _OPTIONAL_KEYS)
    (hs : isSuccess r.statusCode = true) :
    (((AsyncClient.mk cfg (constTransport r)).submit_spam u k).1 = .ok true ↔
        r.text = _SUBMISSION_RESPONSE) ∧
    (((AsyncClient.mk cfg (constTransport r)).submit_ham u k).1 = .ok true ↔
        r.text = _SUBMISSION_RESPONSE) ∧
    (r.text = "invalid" →
      ((AsyncClient.mk cfg (constTransport r)).submit_spam u k).1 = .error .apiKeyError ∧
      ((AsyncClient.mk cfg (constTransport r)).submit_ham u k).1 = .error .apiKeyError) ∧
    (r.text ≠ _SUBMISSION_RESPONSE → r.text ≠ "invalid" →
      ((AsyncClient.mk cfg (constTransport r)).submit_spam u k).1 =
          .error (protocolErrorFor _SUBMIT_SPAM r) ∧
      ((AsyncClient.mk cfg (constTransport r)).submit_ham u k).1 =
          .error (protocolErrorFor _SUBMIT_HAM r)) := by
  unfold AsyncClient.submit_spam AsyncClient.submit_ham
  rw [_submit_classify cfg r _SUBMIT_SPAM u k (by decide) hkw hs,
      _submit_classify cfg r _SUBMIT_HAM u k (by decide) hkw hs]
  by_cases hinv : r.text = "invalid"
  · have hack : r.text ≠ _SUBMISSION_RESPONSE := by rw [hinv]; decide
    simp [hinv, hack, _SUBMISSION_RESPONSE]
  · by_cases hack : r.text = _SUBMISSION_RESPONSE <;> simp [hinv, hack, _SUBMISSION_RESPONSE]

/-- Witness for C4: a concrete acknowledged submission. -/
theorem C4_submission_classification_witness :
    ((AsyncClient.mk testConfig
        (constTransport ⟨200, _SUBMISSION_RESPONSE, []⟩)).submit_spam "127.0.0.1" []).1 =
      .ok true :=
  ((C4_submission_classification testConfig ⟨200, _SUBMISSION_RESPONSE, []⟩ "127.0.0.1" []
      (by decide) (by decide)).1).mpr rfl

/-- C5: supplying any optional argument name outside the recognized set makes
comment_check, submit_spam and submit_ham raise `UnknownArgumentError` with
zero transport invocations, whatever the transport would have answered. -/
theorem C5_unknown_argument_no_network (cfg : Config) (t : Request → TransportOutcome)
    (u : String) (k : List (String × String)) (h : ∃ kv ∈ k, kv.1 ∉ _OPTIONAL_KEYS) :
    (isUnknownArgumentError ((AsyncClient.mk cfg t).comment_check u k).1 = true ∧
      ((AsyncClient.mk cfg t).comment_check u k).2 = []) ∧
    (isUnknownArgumentError ((AsyncClient.mk cfg t).submit_spam u k).1 = true ∧
      ((AsyncClient.mk cfg t).submit_spam u k).2 = []) ∧
    (isUnknownArgumentError ((AsyncClient.mk cfg t).submit_ham u k).1 = true ∧
      ((AsyncClient.mk cfg t).submit_ham u k).2 = []) := by
  have hp1 := _post_request_unknown (AsyncClient.mk cfg t) _API_V11 _COMMENT_CHECK u k h
  have hp2 := _post_request_unknown (AsyncClient.mk cfg t) _API_V11 _SUBMIT_SPAM u k h
  have hp3 := _post_request_unknown (AsyncClient.mk cfg t) _API_V11 _SUBMIT_HAM u k h
  unfold AsyncClient.comment_check AsyncClient.submit_spam AsyncClient.submit_ham AsyncClient._submit
  rw [hp1, hp2, hp3]
  simp [isUnknownArgumentError]

/-- Witness for C5: a concrete unknown argument name. -/
theorem C5_unknown_argument_no_network_witness :
    isUnknownArgumentError ((AsyncClient.mk testConfig
        (constTransport ⟨200, "true", []⟩)).comment_check "127.0.0.1"
        [("bad_argument", "1")]).1 = true ∧
    ((AsyncClient.mk testConfig (constTransport ⟨200, "true", []⟩)).comment_check "127.0.0.1"
        [("bad_argument", "1")]).2 = [] :=
  (C5_unknown_argument_no_network testConfig (constTransport ⟨200, "true", []⟩) "127.0.0.1"
      [("bad_argument", "1")] (by decide)).1

end Akismet

namespace Akismet

/-- Reduction of `_try_discover_config` when both environment variables are
set: the emptiness check, then the scheme check, then the `Config`. -/
theorem _try_discover_config_some (key url : String) :
    _try_discover_config (some key) (some url) =
      (if key = "" ∨ url = "" then .error .configurationError
       else if ¬ (pyStartsWith url "http://" ∨ pyStartsWith url "https://") then
         .error .configurationError
       else .ok ⟨key, url⟩) := rfl

/-- After successful discovery, `validated_client` is exactly the result of
running `verify_key` on the discovered configuration and gating on it. -/
theorem validated_client_eq (envKey envUrl : Option String) (t : Request → TransportOutcome)
    (cfg : Config) (hdisc : _try_discover_config envKey envUrl = .ok cfg) :
    AsyncClient.validated_client envKey envUrl t =
      (match (AsyncClient.mk cfg t).verify_key cfg.key cfg.url with
       | (.error e, tr) => (.error e, tr)
       | (.ok b, tr) =>
         if b then (.ok (AsyncClient.mk cfg t), tr) else (.error .apiKeyError, tr)) := by
  unfold AsyncClient.validated_client
  rw [hdisc]

/-- C6: on the validating-constructor path, the discovered configuration is
verified exactly once (the whole construction issues exactly the one
verify-key request); a false verification raises APIKeyError, and any
instance actually returned holds the discovered configuration, which
verify_key accepted. -/
theorem C6_validated_client_verifies (envKey envUrl : Option String)
    (t : Request → TransportOutcome) (cfg : Config)
    (hdisc : _try_discover_config envKey envUrl = .ok cfg) :
    (((AsyncClient.mk cfg t).verify_key cfg.key cfg.url).1 = .ok false →
      AsyncClient.validated_client envKey envUrl t =
        (.error .apiKeyError, [verifyKeyRequest cfg.key cfg.url])) ∧
    (∀ inst : AsyncClient, (AsyncClient.validated_client envKey envUrl t).1 = .ok inst →
      inst._config = cfg ∧
      ((AsyncClient.mk cfg t).verify_key cfg.key cfg.url).1 = .ok true ∧
      (AsyncClient.validated_client envKey envUrl t).2 = [verifyKeyRequest cfg.key cfg.url]) := by
  have hval := validated_client_eq envKey envUrl t cfg hdisc
  have htr := verify_key_trace (AsyncClient.mk cfg t) cfg.key cfg.url
  rcases hv : (AsyncClient.mk cfg t).verify_key cfg.key cfg.url with ⟨res, tr⟩
  rw [hv] at hval htr
  simp only [] at htr
  subst htr
  constructor
  · intro hfalse
    simp only [] at hfalse
    subst hfalse
    rw [hval]
    rfl
  · intro inst hinst
    rw [hval] at hinst
    rcases res with e | b
    · simp at hinst
    · cases b
      · simp at hinst
      · simp at hinst
        refine ⟨?_, rfl, ?_⟩
        · rw [← hinst]
        · rw [hval]
          rfl

/-- Witness for C6: a concrete validating construction against a transport
answering valid. -/
theorem C6_validated_client_verifies_witness :
    (AsyncClient.mk testConfig (constTransport ⟨200, "valid", []⟩))._config = testConfig ∧
    ((AsyncClient.mk testConfig (constTransport ⟨200, "valid", []⟩)).verify_key
        testConfig.key testConfig.url).1 = .ok true ∧
    (AsyncClient.validated_client (some "fake-test-key") (some "http://example.com")
        (constTransport ⟨200, "valid", []⟩)).2 =
      [verifyKeyRequest testConfig.key testConfig.url] :=
  (C6_validated_client_verifies (some "fake-test-key") (some "http://example.com")
      (constTransport ⟨200, "valid", []⟩) testConfig rfl).2
    (AsyncClient.mk testConfig (constTransport ⟨200, "valid", []⟩)) rfl

/-- C7: when the discovered site URL lacks the case-sensitive prefix
http:// or https://, validating construction fails with ConfigurationError
and no request reaches the transport; conversely any URL with such a prefix
passes discovery unchanged (no other well-formedness is checked). -/
theorem C7_url_scheme_check (key url : String) (t : Request → TransportOutcome)
    (hk : key ≠ "") (hu : url ≠ "")
    (hpre : pyStartsWith url "http://" = false ∧ pyStartsWith url "https://" = false) :
    AsyncClient.validated_client (some key) (some url) t = (.error .configurationError, []) ∧
    (∀ url2 : String,
      pyStartsWith url2 "http://" = true ∨ pyStartsWith url2 "https://" = true →
        _try_discover_config (some key) (some url2) = .ok ⟨key, url2⟩) := by
  constructor
  · have hdisc : _try_discover_config (some key) (some url) = .error .configurationError := by
      rw [_try_discover_config_some,
        if_neg (not_or.mpr ⟨hk, hu⟩), if_pos (by simp [hpre.1, hpre.2])]
    unfold AsyncClient.validated_client
    rw [hdisc]
  · intro url2 h2
    have hu2 : url2 ≠ "" := by
      intro hcon
      subst hcon
      rcases h2 with h | h <;> exact absurd h (by decide)
    rw [_try_discover_config_some,
      if_neg (not_or.mpr ⟨hk, hu2⟩), if_neg (not_not_intro (by
      rcases h2 with h | h
      · exact Or.inl h
      · exact Or.inr h))]

/-- Witness for C7: the ftp scheme from the repository test suite is
rejected, while an http URL passes discovery. -/
theorem C7_url_scheme_check_witness :
    AsyncClient.validated_client (some "fake-test-key") (some "ftp://example.com")
        (constTransport ⟨200, "valid", []⟩) = (.error .configurationError, []) ∧
    _try_discover_config (some "fake-test-key") (some "http://example.com") =
      .ok ⟨"fake-test-key", "http://example.com"⟩ :=
  ⟨(C7_url_scheme_check "fake-test-key" "ftp://example.com" (constTransport ⟨200, "valid", []⟩)
      (by decide) (by decide) ⟨rfl, rfl⟩).1,
   (C7_url_scheme_check "fake-test-key" "ftp://example.com" (constTransport ⟨200, "valid", []⟩)
      (by decide) (by decide) ⟨rfl, rfl⟩).2 "http://example.com" (Or.inl rfl)⟩

/-- C8: the GET issued by `key_sites` carries exactly the explicitly supplied
optional query parameters and never the API key; in particular with no
arguments the query is empty. -/
theorem C8_key_sites_request_has_no_api_key (client : AsyncClient)
    (month url_filter result_format order : Option String) (limit offset : Option Int) :
    (client.key_sites month url_filter result_format order limit offset).2 =
      [⟨"GET", _API_URL ++ "/" ++ _API_V12 ++ "/" ++ _KEY_SITES,
        keySitesParams month url_filter result_format order limit offset⟩] ∧
    (keySitesParams month url_filter result_format order limit offset).lookup "api_key" = none ∧
    ((AsyncClient.mk testConfig (constTransport ⟨200, "x", []⟩)).key_sites
        none none none none none none).2 =
      [⟨"GET", "https://rest.akismet.com/1.2/key-sites", []⟩] := by
  refine ⟨key_sites_trace client month url_filter result_format order limit offset, ?_, rfl⟩
  rcases month with _ | mv <;> rcases url_filter with _ | fv <;>
    rcases result_format with _ | fmtv <;> rcases order with _ | ov <;>
      rcases limit with _ | lv <;> rcases offset with _ | offv <;>
        simp [keySitesParams, List.lookup]

end Akismet

namespace Akismet

/-- C9: every POST issued by comment_check, submit_spam or submit_ham has
api_key and blog form fields equal to the stored Config, and those two names
are outside the recognized optional-argument set, so a caller supplying
either name gets UnknownArgumentError before any request is sent. -/
theorem C9_identity_fields_not_overridable (cfg : Config) (t : Request → TransportOutcome)
    (u : String) (k : List (String × String)) (hkw : ∀ kv ∈ k, kv.1 ∈ _OPTIONAL_KEYS) :
    (∀ req ∈ ((AsyncClient.mk cfg t).comment_check u k).2,
      req.data.lookup "api_key" = some cfg.key ∧ req.data.lookup "blog" = some cfg.url) ∧
    (∀ req ∈ ((AsyncClient.mk cfg t).submit_spam u k).2,
      req.data.lookup "api_key" = some cfg.key ∧ req.data.lookup "blog" = some cfg.url) ∧
    (∀ req ∈ ((AsyncClient.mk cfg t).submit_ham u k).2,
      req.data.lookup "api_key" = some cfg.key ∧ req.data.lookup "blog" = some cfg.url) ∧
    ("api_key" ∉ _OPTIONAL_KEYS ∧ "blog" ∉ _OPTIONAL_KEYS) ∧
    (∀ (v : String) (k2 : List (String × String)),
      ("api_key", v) ∈ k2 ∨ ("blog", v) ∈ k2 →
        (isUnknownArgumentError ((AsyncClient.mk cfg t).comment_check u k2).1 = true ∧
          ((AsyncClient.mk cfg t).comment_check u k2).2 = []) ∧
        (isUnknownArgumentError ((AsyncClient.mk cfg t).submit_spam u k2).1 = true ∧
          ((AsyncClient.mk cfg t).submit_spam u k2).2 = []) ∧
        (isUnknownArgumentError ((AsyncClient.mk cfg t).submit_ham u k2).1 = true ∧
          ((AsyncClient.mk cfg t).submit_ham u k2).2 = [])) := by
  have hlook : ∀ endpoint,
      (postRequestFor cfg endpoint u k).data.lookup "api_key" = some cfg.key ∧
      (postRequestFor cfg endpoint u k).data.lookup "blog" = some cfg.url := by
    intro endpoint
    constructor <;> simp [postRequestFor, List.lookup]
  refine ⟨?_, ?_, ?_, ⟨by decide, by decide⟩, ?_⟩
  · intro req hreq
    rw [comment_check_trace (AsyncClient.mk cfg t) u k hkw] at hreq
    simp only [List.mem_singleton] at hreq
    subst hreq
    exact hlook _COMMENT_CHECK
  · intro req hreq
    rw [show (AsyncClient.mk cfg t).submit_spam u k =
          (AsyncClient.mk cfg t)._submit _SUBMIT_SPAM u k from rfl,
        _submit_trace (AsyncClient.mk cfg t) _SUBMIT_SPAM u k hkw] at hreq
    simp only [List.mem_singleton] at hreq
    subst hreq
    exact hlook _SUBMIT_SPAM
  · intro req hreq
    rw [show (AsyncClient.mk cfg t).submit_ham u k =
          (AsyncClient.mk cfg t)._submit _SUBMIT_HAM u k from rfl,
        _submit_trace (AsyncClient.mk cfg t) _SUBMIT_HAM u k hkw] at hreq
    simp only [List.mem_singleton] at hreq
    subst hreq
    exact hlook _SUBMIT_HAM
  · intro v k2 hv
    have hunk : ∃ kv ∈ k2, kv.1 ∉ _OPTIONAL_KEYS := by
      rcases hv with hv | hv
      · exact ⟨("api_key", v), hv, by show "api_key" ∉ _OPTIONAL_KEYS; decide⟩
      · exact ⟨("blog", v), hv, by show "blog" ∉ _OPTIONAL_KEYS; decide⟩
    have hp1 := _post_request_unknown (AsyncClient.mk cfg t) _API_V11 _COMMENT_CHECK u k2 hunk
    have hp2 := _post_request_unknown (AsyncClient.mk cfg t) _API_V11 _SUBMIT_SPAM u k2 hunk
    have hp3 := _post_request_unknown (AsyncClient.mk cfg t) _API_V11 _SUBMIT_HAM u k2 hunk
    unfold AsyncClient.comment_check AsyncClient.submit_spam AsyncClient.submit_ham
      AsyncClient._submit
    rw [hp1, hp2, hp3]
    simp [isUnknownArgumentError]

/-- Witness for C9: the concrete POST built for a comment check carries the
test config key and url. -/
theorem C9_identity_fields_not_overridable_witness :
    (postRequestFor testConfig _COMMENT_CHECK "127.0.0.1"
        [("comment_content", "test")]).data.lookup "api_key" = some testConfig.key ∧
    (postRequestFor testConfig _COMMENT_CHECK "127.0.0.1"
        [("comment_content", "test")]).data.lookup "blog" = some testConfig.url :=
  (C9_identity_fields_not_overridable testConfig (constTransport ⟨200, "true", []⟩)
      "127.0.0.1" [("comment_content", "test")] (by decide)).1
    (postRequestFor testConfig _COMMENT_CHECK "127.0.0.1" [("comment_content", "test")])
    (by decide)

/-- C10: verify_key ignores the stored Config: for any two clients with any
two configurations, the same key and url produce the same single request
(payload key and blog drawn from the arguments), and equal transport answers
to that request give equal results. -/
theorem C10_verify_key_ignores_stored_config (cfg1 cfg2 : Config)
    (t1 t2 : Request → TransportOutcome) (key url : String)
    (h : t1 (verifyKeyRequest key url) = t2 (verifyKeyRequest key url)) :
    (AsyncClient.mk cfg1 t1).verify_key key url = (AsyncClient.mk cfg2 t2).verify_key key url ∧
    ((AsyncClient.mk cfg1 t1).verify_key key url).2 = [verifyKeyRequest key url] := by
  refine ⟨?_, verify_key_trace _ key url⟩
  unfold AsyncClient.verify_key AsyncClient._request
  simp only [verifyKeyRequest] at h
  rw [show asciiUpper "POST" = "POST" from rfl]
  simp [h]

/-- Witness for C10: two clients with different stored configurations agree
on a concrete verify_key call. -/
theorem C10_verify_key_ignores_stored_config_witness :
    (AsyncClient.mk testConfig (constTransport ⟨200, "valid", []⟩)).verify_key
        "some-key" "http://site.example" =
      (AsyncClient.mk ⟨"other-key", "https://other.example"⟩
          (constTransport ⟨200, "valid", []⟩)).verify_key "some-key" "http://site.example" ∧
    ((AsyncClient.mk testConfig (constTransport ⟨200, "valid", []⟩)).verify_key
        "some-key" "http://site.example").2 =
      [verifyKeyRequest "some-key" "http://site.example"] :=
  C10_verify_key_ignores_stored_config testConfig ⟨"other-key", "https://other.example"⟩
    (constTransport ⟨200, "valid", []⟩) (constTransport ⟨200, "valid", []⟩)
    "some-key" "http://site.example" rfl

end Akismet
